import Mathlib

/-!
Verification development for the `hid-nx` (hid-nintendo) controller driver.

The definitions below are a shallow embedding of the protocol, calibration,
IMU-timing and rumble logic of `src/hid-nintendo.c`.  C signed division is
`Int.tdiv` (truncation toward zero), C unsigned arithmetic is `Nat` with an
explicit `% 2^32` where the source relies on 32-bit wrap-around, and C code
that can fail or touch the transport is modelled by explicit result values
and lists of emitted frames.
-/

namespace HidNx

/-! ## Constants from the driver source -/

/-- Source: `#define NX_CON_MAX_STICK_MAG 32767`. -/
def NX_CON_MAX_STICK_MAG : Int := 32767

/-- Source: `#define NX_CON_IMU_DFLT_AVG_DELTA_MS 15`. -/
def NX_CON_IMU_DFLT_AVG_DELTA_MS : Nat := 15

/-- Source: `#define NX_CON_IMU_SAMPLES_PER_DELTA_AVG 300`. -/
def NX_CON_IMU_SAMPLES_PER_DELTA_AVG : Nat := 300

/-- Source: `static const unsigned short NX_CON_RUMBLE_ZERO_AMP_PKT_CNT = 5;`. -/
def NX_CON_RUMBLE_ZERO_AMP_PKT_CNT : Nat := 5

/-- Source: `#define NX_CON_RUMBLE_QUEUE_SIZE 8`. -/
def NX_CON_RUMBLE_QUEUE_SIZE : Nat := 8

/-- Linux errno value `ETIMEDOUT` (110); the driver returns `-ETIMEDOUT`. -/
def ETIMEDOUT : Int := 110

/-- Linux errno value `ENODEV` (19); the driver returns `-ENODEV`. -/
def ENODEV : Int := 19

/-- Modulus of C `unsigned int` (32-bit) arithmetic. -/
def U32 : Nat := 4294967296

/-- Reduce a natural number into the 32-bit unsigned range. -/
def u32 (n : Nat) : Nat := n % U32

/-- C 32-bit unsigned subtraction `a - b` (wraps modulo `2^32`). -/
def u32_sub (a b : Nat) : Nat := (a % U32 + U32 - b % U32) % U32

/-! ## Stick calibration and `nx_con_map_stick_val` -/

/-- Source: `struct nx_con_stick_cal { s32 max; s32 min; s32 center; }`
(field order as used in the driver: center, max, min). -/
structure NxConStickCal where
  center : Int
  max : Int
  min : Int
deriving DecidableEq

/-- Kernel `clamp(val, lo, hi)` = `min(max(val, lo), hi)`. -/
def clamp (v lo hi : Int) : Int := min (max v lo) hi

/-- Source: `nx_con_map_stick_val` (hid-nintendo.c:1226-1244).
Values above center scale by `(val - center) * 32767 / (max - center)`,
values at or below center by `(center - val) * -32767 / (center - min)`;
the result is clamped into `[-32767, 32767]`.  C `s32` division truncates
toward zero, hence `Int.tdiv`. -/
def nx_con_map_stick_val (cal : NxConStickCal) (val : Int) : Int :=
  let new_val :=
    if val > cal.center then
      Int.tdiv ((val - cal.center) * NX_CON_MAX_STICK_MAG) (cal.max - cal.center)
    else
      Int.tdiv ((cal.center - val) * (-NX_CON_MAX_STICK_MAG)) (cal.center - cal.min)
  clamp new_val (-NX_CON_MAX_STICK_MAG) NX_CON_MAX_STICK_MAG

/-! ## IMU calibration (`nx_con_request_imu_calibration`) -/

/-- Reinterpret a little-endian 16-bit unsigned value as C `s16`. -/
def s16_of_u16 (n : Nat) : Int :=
  if n % 65536 < 32768 then (n % 65536 : Int) else (n % 65536 : Int) - 65536

/-- Kernel `get_unaligned_le16(raw + i)` over a byte list. -/
def get_unaligned_le16 (raw : List Nat) (i : Nat) : Nat :=
  raw.getD i 0 % 256 + 256 * (raw.getD (i + 1) 0 % 256)

/-- Source: `static const s16 DFLT_ACCEL_OFFSET /*= 0*/;`. -/
def DFLT_ACCEL_OFFSET : Int := 0

/-- Source: `static const s16 DFLT_ACCEL_SCALE = 16384;`. -/
def DFLT_ACCEL_SCALE : Int := 16384

/-- Source: `static const s16 DFLT_GYRO_OFFSET /*= 0*/;`. -/
def DFLT_GYRO_OFFSET : Int := 0

/-- Source: `static const s16 DFLT_GYRO_SCALE = 13371;`. -/
def DFLT_GYRO_SCALE : Int := 13371

/-- The IMU-calibration portion of `struct nx_con`: `accel_cal`, `gyro_cal`
(each `s16 offset[3]; s16 scale[3];`) and the cached `s32` divisors. -/
structure ImuCalState where
  accel_offset : Fin 3 → Int
  accel_scale : Fin 3 → Int
  gyro_offset : Fin 3 → Int
  gyro_scale : Fin 3 → Int
  accel_divisor : Fin 3 → Int
  gyro_divisor : Fin 3 → Int

/-- Source: `nx_con_calc_imu_cal_divisors` (hid-nintendo.c:1106-1116):
`divisor[i] = scale[i] - offset[i]` for each of the three axes, for both
the accelerometer and the gyroscope. -/
def nx_con_calc_imu_cal_divisors (s : ImuCalState) : ImuCalState :=
  { s with
    accel_divisor := fun i => s.accel_scale i - s.accel_offset i,
    gyro_divisor := fun i => s.gyro_scale i - s.gyro_offset i }

/-- Source: `nx_con_request_imu_calibration` (hid-nintendo.c:1123-1185).
`flash = none` models a failed SPI flash read (the driver falls back to the
default offset/scale pairs); `flash = some raw` models a successful read of
the raw calibration bytes, parsed as little-endian `s16` fields at offsets
`2i`, `2i+6`, `2i+12`, `2i+18`.  Either way the divisors are recomputed
immediately afterwards. -/
def nx_con_request_imu_calibration (flash : Option (List Nat)) : ImuCalState :=
  match flash with
  | none =>
    nx_con_calc_imu_cal_divisors
      { accel_offset := fun _ => DFLT_ACCEL_OFFSET
        accel_scale := fun _ => DFLT_ACCEL_SCALE
        gyro_offset := fun _ => DFLT_GYRO_OFFSET
        gyro_scale := fun _ => DFLT_GYRO_SCALE
        accel_divisor := fun _ => 0
        gyro_divisor := fun _ => 0 }
  | some raw =>
    nx_con_calc_imu_cal_divisors
      { accel_offset := fun i => s16_of_u16 (get_unaligned_le16 raw (2 * i.val))
        accel_scale := fun i => s16_of_u16 (get_unaligned_le16 raw (2 * i.val + 6))
        gyro_offset := fun i => s16_of_u16 (get_unaligned_le16 raw (2 * i.val + 12))
        gyro_scale := fun i => s16_of_u16 (get_unaligned_le16 raw (2 * i.val + 18))
        accel_divisor := fun _ => 0
        gyro_divisor := fun _ => 0 }

/-! ## Right-Joy-Con IMU sign correction -/

/-- Source: `nx_con_report_imu` (hid-nintendo.c:1446-1455).  For the right
joy-con the driver runs
`for (j = 1; j < 6; ++j) { if (j == 3) continue; value[j] *= -1; }`
over the scaled vector `[gyro_x, gyro_y, gyro_z, accel_x, accel_y, accel_z]`,
i.e. it negates exactly the entries with index in `{1, 2, 4, 5}`. -/
def nx_con_imu_sign_correct (is_right_joycon : Bool) (value : Fin 6 → Int) :
    Fin 6 → Int :=
  if is_right_joycon then
    fun j => if j.val = 0 ∨ j.val = 3 then value j else -(value j)
  else
    value

/-! ## Synchronous send (`nx_con_hid_send_sync`) -/

/-- Observable outcome of one `nx_con_hid_send_sync` call: the returned
errno-style value, the number of transport send attempts made, and the
number of reply waits performed. -/
structure SyncOutcome where
  ret : Int
  sends : Nat
  waits : Nat
deriving DecidableEq

/-- Source: the retry loop of `nx_con_hid_send_sync` (hid-nintendo.c:829-861),
with `tries` the remaining loop iterations and `i` the index of the next
attempt.  `sendRet i` is the value `__nx_con_hid_send` returns on attempt `i`
and `gotReply i` tells whether a matching reply arrives within the timeout.
A negative transport result is returned immediately (no wait); a timeout sets
`ret = -ETIMEDOUT` and iterates; when the tries are exhausted the last
timeout result is returned. -/
def nx_con_hid_send_sync_go (sendRet : Nat → Int) (gotReply : Nat → Bool) :
    Nat → Nat → SyncOutcome
  | 0, i => ⟨-ETIMEDOUT, i, i⟩
  | tries + 1, i =>
    if sendRet i < 0 then ⟨sendRet i, i + 1, i⟩
    else if gotReply i then ⟨0, i + 1, i + 1⟩
    else nx_con_hid_send_sync_go sendRet gotReply tries (i + 1)

/-- Source: `nx_con_hid_send_sync` with its initial `int tries = 2;`. -/
def nx_con_hid_send_sync (sendRet : Nat → Int) (gotReply : Nat → Bool) :
    SyncOutcome :=
  nx_con_hid_send_sync_go sendRet gotReply 2 0

/-! ## Session state, subcommand sends, rumble-only sends -/

/-- Source: `enum nx_con_state` (`NX_CON_STATE_INIT/READ/REMOVED`). -/
inductive NxConState where
  | INIT
  | READ
  | REMOVED
deriving DecidableEq

/-- Source: `nx_con_send_subcmd` (hid-nintendo.c:876-910).  Returns the
errno-style result, the updated `subcmd_num` counter and the `packet_num`
values of the frames emitted on the transport (the synchronous send may
transmit the same stamped frame twice on retry).  If the session state is
`REMOVED` the function returns `-ENODEV` before building or sending any
frame. -/
def nx_con_send_subcmd (state : NxConState) (subcmd_num : Nat)
    (sendRet : Nat → Int) (gotReply : Nat → Bool) : Int × Nat × List Nat :=
  if state = NxConState.REMOVED then
    (-ENODEV, subcmd_num, [])
  else
    let pkt := subcmd_num
    let next := if subcmd_num + 1 > 0xF then 0 else subcmd_num + 1
    let out := nx_con_hid_send_sync sendRet gotReply
    (if out.ret < 0 then out.ret else 0, next, List.replicate out.sends pkt)

/-- Source: `nx_con_send_rumble_data` (hid-nintendo.c:1658-1687).  Same
`REMOVED` guard as `nx_con_send_subcmd`; otherwise stamps `packet_num`,
advances the counter with the same wrap, and performs exactly one
`__nx_con_hid_send` whose result is returned. -/
def nx_con_send_rumble_data (state : NxConState) (subcmd_num : Nat)
    (sendRet : Int) : Int × Nat × List Nat :=
  if state = NxConState.REMOVED then
    (-ENODEV, subcmd_num, [])
  else
    let pkt := subcmd_num
    let next := if subcmd_num + 1 > 0xF then 0 else subcmd_num + 1
    (sendRet, next, [pkt])

/-- A trace element for the packet-counter invariant: either a subcommand
send or a rumble-only send, each with its session state and transport
behaviour. -/
inductive SendOp where
  | subcmd (state : NxConState) (sendRet : Nat → Int) (gotReply : Nat → Bool)
  | rumble (state : NxConState) (sendRet : Int)

/-- Run a sequence of sends through the shared `subcmd_num` counter,
collecting the `packet_num` of every frame emitted on the transport. -/
def runSendOps : Nat → List SendOp → Nat × List Nat
  | num, [] => (num, [])
  | num, op :: ops =>
    let step :=
      match op with
      | SendOp.subcmd st sr gr => nx_con_send_subcmd st num sr gr
      | SendOp.rumble st sr => nx_con_send_rumble_data st num sr
    let rest := runSendOps step.2.1 ops
    (rest.1, step.2.2 ++ rest.2)

/-! ## Rumble frequency/amplitude tables and encoding -/

/-- Source: `struct nx_con_rumble_freq_data { u16 high; u8 low; u16 freq; }`. -/
structure NxConRumbleFreqData where
  high : Nat
  low : Nat
  freq : Nat
deriving DecidableEq

instance : Inhabited NxConRumbleFreqData := ⟨⟨0, 0, 0⟩⟩

/-- Source: `struct nx_con_rumble_amp_data { u8 high; u16 low; u16 amp; }`. -/
structure NxConRumbleAmpData where
  high : Nat
  low : Nat
  amp : Nat
deriving DecidableEq

instance : Inhabited NxConRumbleAmpData := ⟨⟨0, 0, 0⟩⟩

/-- Source: `nx_con_rumble_frequencies` (hid-nintendo.c:203-258), 159 entries,
transcribed in order as `⟨high, low, freq⟩`. -/
def nx_con_rumble_frequencies : List NxConRumbleFreqData := [
  NxConRumbleFreqData.mk 0 1 41, NxConRumbleFreqData.mk 0 2 42, NxConRumbleFreqData.mk 0 3 43,
  NxConRumbleFreqData.mk 0 4 44, NxConRumbleFreqData.mk 0 5 45, NxConRumbleFreqData.mk 0 6 46,
  NxConRumbleFreqData.mk 0 7 47, NxConRumbleFreqData.mk 0 8 48, NxConRumbleFreqData.mk 0 9 49,
  NxConRumbleFreqData.mk 0 10 50, NxConRumbleFreqData.mk 0 11 51, NxConRumbleFreqData.mk 0 12 52,
  NxConRumbleFreqData.mk 0 13 53, NxConRumbleFreqData.mk 0 14 54, NxConRumbleFreqData.mk 0 15 55,
  NxConRumbleFreqData.mk 0 16 57, NxConRumbleFreqData.mk 0 17 58, NxConRumbleFreqData.mk 0 18 59,
  NxConRumbleFreqData.mk 0 19 60, NxConRumbleFreqData.mk 0 20 62, NxConRumbleFreqData.mk 0 21 63,
  NxConRumbleFreqData.mk 0 22 64, NxConRumbleFreqData.mk 0 23 66, NxConRumbleFreqData.mk 0 24 67,
  NxConRumbleFreqData.mk 0 25 69, NxConRumbleFreqData.mk 0 26 70, NxConRumbleFreqData.mk 0 27 72,
  NxConRumbleFreqData.mk 0 28 73, NxConRumbleFreqData.mk 0 29 75, NxConRumbleFreqData.mk 0 30 77,
  NxConRumbleFreqData.mk 0 31 78, NxConRumbleFreqData.mk 0 32 80, NxConRumbleFreqData.mk 1024 33 82,
  NxConRumbleFreqData.mk 2048 34 84, NxConRumbleFreqData.mk 3072 35 85, NxConRumbleFreqData.mk 4096 36 87,
  NxConRumbleFreqData.mk 5120 37 89, NxConRumbleFreqData.mk 6144 38 91, NxConRumbleFreqData.mk 7168 39 93,
  NxConRumbleFreqData.mk 8192 40 95, NxConRumbleFreqData.mk 9216 41 97, NxConRumbleFreqData.mk 10240 42 99,
  NxConRumbleFreqData.mk 11264 43 102, NxConRumbleFreqData.mk 12288 44 104, NxConRumbleFreqData.mk 13312 45 106,
  NxConRumbleFreqData.mk 14336 46 108, NxConRumbleFreqData.mk 15360 47 111, NxConRumbleFreqData.mk 16384 48 113,
  NxConRumbleFreqData.mk 17408 49 116, NxConRumbleFreqData.mk 18432 50 118, NxConRumbleFreqData.mk 19456 51 121,
  NxConRumbleFreqData.mk 20480 52 123, NxConRumbleFreqData.mk 21504 53 126, NxConRumbleFreqData.mk 22528 54 129,
  NxConRumbleFreqData.mk 23552 55 132, NxConRumbleFreqData.mk 24576 56 135, NxConRumbleFreqData.mk 25600 57 137,
  NxConRumbleFreqData.mk 26624 58 141, NxConRumbleFreqData.mk 27648 59 144, NxConRumbleFreqData.mk 28672 60 147,
  NxConRumbleFreqData.mk 29696 61 150, NxConRumbleFreqData.mk 30720 62 153, NxConRumbleFreqData.mk 31744 63 157,
  NxConRumbleFreqData.mk 32768 64 160, NxConRumbleFreqData.mk 33792 65 164, NxConRumbleFreqData.mk 34816 66 167,
  NxConRumbleFreqData.mk 35840 67 171, NxConRumbleFreqData.mk 36864 68 174, NxConRumbleFreqData.mk 37888 69 178,
  NxConRumbleFreqData.mk 38912 70 182, NxConRumbleFreqData.mk 39936 71 186, NxConRumbleFreqData.mk 40960 72 190,
  NxConRumbleFreqData.mk 41984 73 194, NxConRumbleFreqData.mk 43008 74 199, NxConRumbleFreqData.mk 44032 75 203,
  NxConRumbleFreqData.mk 45056 76 207, NxConRumbleFreqData.mk 46080 77 212, NxConRumbleFreqData.mk 47104 78 217,
  NxConRumbleFreqData.mk 48128 79 221, NxConRumbleFreqData.mk 49152 80 226, NxConRumbleFreqData.mk 50176 81 231,
  NxConRumbleFreqData.mk 51200 82 236, NxConRumbleFreqData.mk 52224 83 241, NxConRumbleFreqData.mk 53248 84 247,
  NxConRumbleFreqData.mk 54272 85 252, NxConRumbleFreqData.mk 55296 86 258, NxConRumbleFreqData.mk 56320 87 263,
  NxConRumbleFreqData.mk 57344 88 269, NxConRumbleFreqData.mk 58368 89 275, NxConRumbleFreqData.mk 59392 90 281,
  NxConRumbleFreqData.mk 60416 91 287, NxConRumbleFreqData.mk 61440 92 293, NxConRumbleFreqData.mk 62464 93 300,
  NxConRumbleFreqData.mk 63488 94 306, NxConRumbleFreqData.mk 64512 95 313, NxConRumbleFreqData.mk 1 96 320,
  NxConRumbleFreqData.mk 1025 97 327, NxConRumbleFreqData.mk 2049 98 334, NxConRumbleFreqData.mk 3073 99 341,
  NxConRumbleFreqData.mk 4097 100 349, NxConRumbleFreqData.mk 5121 101 357, NxConRumbleFreqData.mk 6145 102 364,
  NxConRumbleFreqData.mk 7169 103 372, NxConRumbleFreqData.mk 8193 104 381, NxConRumbleFreqData.mk 9217 105 389,
  NxConRumbleFreqData.mk 10241 106 397, NxConRumbleFreqData.mk 11265 107 406, NxConRumbleFreqData.mk 12289 108 415,
  NxConRumbleFreqData.mk 13313 109 424, NxConRumbleFreqData.mk 14337 110 433, NxConRumbleFreqData.mk 15361 111 443,
  NxConRumbleFreqData.mk 16385 112 453, NxConRumbleFreqData.mk 17409 113 462, NxConRumbleFreqData.mk 18433 114 473,
  NxConRumbleFreqData.mk 19457 115 483, NxConRumbleFreqData.mk 20481 116 494, NxConRumbleFreqData.mk 21505 117 504,
  NxConRumbleFreqData.mk 22529 118 515, NxConRumbleFreqData.mk 23553 119 527, NxConRumbleFreqData.mk 24577 120 538,
  NxConRumbleFreqData.mk 25601 121 550, NxConRumbleFreqData.mk 26625 122 562, NxConRumbleFreqData.mk 27649 123 574,
  NxConRumbleFreqData.mk 28673 124 587, NxConRumbleFreqData.mk 29697 125 600, NxConRumbleFreqData.mk 30721 126 613,
  NxConRumbleFreqData.mk 31745 127 626, NxConRumbleFreqData.mk 32769 0 640, NxConRumbleFreqData.mk 33793 0 654,
  NxConRumbleFreqData.mk 34817 0 668, NxConRumbleFreqData.mk 35841 0 683, NxConRumbleFreqData.mk 36865 0 698,
  NxConRumbleFreqData.mk 37889 0 713, NxConRumbleFreqData.mk 38913 0 729, NxConRumbleFreqData.mk 39937 0 745,
  NxConRumbleFreqData.mk 40961 0 761, NxConRumbleFreqData.mk 41985 0 778, NxConRumbleFreqData.mk 43009 0 795,
  NxConRumbleFreqData.mk 44033 0 812, NxConRumbleFreqData.mk 45057 0 830, NxConRumbleFreqData.mk 46081 0 848,
  NxConRumbleFreqData.mk 47105 0 867, NxConRumbleFreqData.mk 48129 0 886, NxConRumbleFreqData.mk 49153 0 905,
  NxConRumbleFreqData.mk 50177 0 925, NxConRumbleFreqData.mk 51201 0 945, NxConRumbleFreqData.mk 52225 0 966,
  NxConRumbleFreqData.mk 53249 0 987, NxConRumbleFreqData.mk 54273 0 1009, NxConRumbleFreqData.mk 55297 0 1031,
  NxConRumbleFreqData.mk 56321 0 1053, NxConRumbleFreqData.mk 57345 0 1076, NxConRumbleFreqData.mk 58369 0 1100,
  NxConRumbleFreqData.mk 59393 0 1124, NxConRumbleFreqData.mk 60417 0 1149, NxConRumbleFreqData.mk 61441 0 1174,
  NxConRumbleFreqData.mk 62465 0 1199, NxConRumbleFreqData.mk 63489 0 1226, NxConRumbleFreqData.mk 64513 0 1253
]

/-- Source: `nx_con_rumble_amplitudes` (hid-nintendo.c:261-298), 101 entries,
transcribed in order as `⟨high, low, amp⟩` (the last amp is
`nx_con_max_rumble_amp = 1003`). -/
def nx_con_rumble_amplitudes : List NxConRumbleAmpData := [
  NxConRumbleAmpData.mk 0 64 0, NxConRumbleAmpData.mk 2 32832 10, NxConRumbleAmpData.mk 4 65 12,
  NxConRumbleAmpData.mk 6 32833 14, NxConRumbleAmpData.mk 8 66 17, NxConRumbleAmpData.mk 10 32834 20,
  NxConRumbleAmpData.mk 12 67 24, NxConRumbleAmpData.mk 14 32835 28, NxConRumbleAmpData.mk 16 68 33,
  NxConRumbleAmpData.mk 18 32836 40, NxConRumbleAmpData.mk 20 69 47, NxConRumbleAmpData.mk 22 32837 56,
  NxConRumbleAmpData.mk 24 70 67, NxConRumbleAmpData.mk 26 32838 80, NxConRumbleAmpData.mk 28 71 95,
  NxConRumbleAmpData.mk 30 32839 112, NxConRumbleAmpData.mk 32 72 117, NxConRumbleAmpData.mk 34 32840 123,
  NxConRumbleAmpData.mk 36 73 128, NxConRumbleAmpData.mk 38 32841 134, NxConRumbleAmpData.mk 40 74 140,
  NxConRumbleAmpData.mk 42 32842 146, NxConRumbleAmpData.mk 44 75 152, NxConRumbleAmpData.mk 46 32843 159,
  NxConRumbleAmpData.mk 48 76 166, NxConRumbleAmpData.mk 50 32844 173, NxConRumbleAmpData.mk 52 77 181,
  NxConRumbleAmpData.mk 54 32845 189, NxConRumbleAmpData.mk 56 78 198, NxConRumbleAmpData.mk 58 32846 206,
  NxConRumbleAmpData.mk 60 79 215, NxConRumbleAmpData.mk 62 32847 225, NxConRumbleAmpData.mk 64 80 230,
  NxConRumbleAmpData.mk 66 32848 235, NxConRumbleAmpData.mk 68 81 240, NxConRumbleAmpData.mk 70 32849 245,
  NxConRumbleAmpData.mk 72 82 251, NxConRumbleAmpData.mk 74 32850 256, NxConRumbleAmpData.mk 76 83 262,
  NxConRumbleAmpData.mk 78 32851 268, NxConRumbleAmpData.mk 80 84 273, NxConRumbleAmpData.mk 82 32852 279,
  NxConRumbleAmpData.mk 84 85 286, NxConRumbleAmpData.mk 86 32853 292, NxConRumbleAmpData.mk 88 86 298,
  NxConRumbleAmpData.mk 90 32854 305, NxConRumbleAmpData.mk 92 87 311, NxConRumbleAmpData.mk 94 32855 318,
  NxConRumbleAmpData.mk 96 88 325, NxConRumbleAmpData.mk 98 32856 332, NxConRumbleAmpData.mk 100 89 340,
  NxConRumbleAmpData.mk 102 32857 347, NxConRumbleAmpData.mk 104 90 355, NxConRumbleAmpData.mk 106 32858 362,
  NxConRumbleAmpData.mk 108 91 370, NxConRumbleAmpData.mk 110 32859 378, NxConRumbleAmpData.mk 112 92 387,
  NxConRumbleAmpData.mk 114 32860 395, NxConRumbleAmpData.mk 116 93 404, NxConRumbleAmpData.mk 118 32861 413,
  NxConRumbleAmpData.mk 120 94 422, NxConRumbleAmpData.mk 122 32862 431, NxConRumbleAmpData.mk 124 95 440,
  NxConRumbleAmpData.mk 126 32863 450, NxConRumbleAmpData.mk 128 96 460, NxConRumbleAmpData.mk 130 32864 470,
  NxConRumbleAmpData.mk 132 97 480, NxConRumbleAmpData.mk 134 32865 491, NxConRumbleAmpData.mk 136 98 501,
  NxConRumbleAmpData.mk 138 32866 512, NxConRumbleAmpData.mk 140 99 524, NxConRumbleAmpData.mk 142 32867 535,
  NxConRumbleAmpData.mk 144 100 547, NxConRumbleAmpData.mk 146 32868 559, NxConRumbleAmpData.mk 148 101 571,
  NxConRumbleAmpData.mk 150 32869 584, NxConRumbleAmpData.mk 152 102 596, NxConRumbleAmpData.mk 154 32870 609,
  NxConRumbleAmpData.mk 156 103 623, NxConRumbleAmpData.mk 158 32871 636, NxConRumbleAmpData.mk 160 104 650,
  NxConRumbleAmpData.mk 162 32872 665, NxConRumbleAmpData.mk 164 105 679, NxConRumbleAmpData.mk 166 32873 694,
  NxConRumbleAmpData.mk 168 106 709, NxConRumbleAmpData.mk 170 32874 725, NxConRumbleAmpData.mk 172 107 741,
  NxConRumbleAmpData.mk 174 32875 757, NxConRumbleAmpData.mk 176 108 773, NxConRumbleAmpData.mk 178 32876 790,
  NxConRumbleAmpData.mk 180 109 808, NxConRumbleAmpData.mk 182 32877 825, NxConRumbleAmpData.mk 184 110 843,
  NxConRumbleAmpData.mk 186 32878 862, NxConRumbleAmpData.mk 188 111 881, NxConRumbleAmpData.mk 190 32879 900,
  NxConRumbleAmpData.mk 192 112 920, NxConRumbleAmpData.mk 194 32880 940, NxConRumbleAmpData.mk 196 113 960,
  NxConRumbleAmpData.mk 198 32881 981, NxConRumbleAmpData.mk 200 114 1003
]

/-- Key (the `freq` field) of the frequency-table entry at index `i`. -/
def freqKey (i : Nat) : Nat := (nx_con_rumble_frequencies.getD i default).freq

/-- Key (the `amp` field) of the amplitude-table entry at index `i`. -/
def ampKey (i : Nat) : Nat := (nx_con_rumble_amplitudes.getD i default).amp

/-- Source: the scan loop of `nx_con_find_rumble_freq` (hid-nintendo.c:1725-1728):
`for (i = 1; i < length - 1; i++) if (freq > data[i-1].freq && freq <= data[i].freq) break;`
modelled with `fuel` remaining iterations; when the fuel runs out the loop
has reached `i = length - 1`. -/
def nx_con_find_rumble_freq_go (freq : Nat) : Nat → Nat → Nat
  | 0, i => i
  | fuel + 1, i =>
    if freqKey (i - 1) < freq ∧ freq ≤ freqKey i then i
    else nx_con_find_rumble_freq_go freq fuel (i + 1)

/-- Source: `nx_con_find_rumble_freq` (hid-nintendo.c:1718-1732).  Index 0 is
used when `freq <= data[0].freq`; otherwise the scan starts at `i = 1` and
runs at most `length - 2` iterations. -/
def nx_con_find_rumble_freq (freq : Nat) : NxConRumbleFreqData :=
  let i :=
    if freqKey 0 < freq then
      nx_con_find_rumble_freq_go freq (nx_con_rumble_frequencies.length - 2) 1
    else 0
  nx_con_rumble_frequencies.getD i default

/-- Source: the scan loop of `nx_con_find_rumble_amp` (hid-nintendo.c:1741-1744),
same shape as the frequency scan. -/
def nx_con_find_rumble_amp_go (amp : Nat) : Nat → Nat → Nat
  | 0, i => i
  | fuel + 1, i =>
    if ampKey (i - 1) < amp ∧ amp ≤ ampKey i then i
    else nx_con_find_rumble_amp_go amp fuel (i + 1)

/-- Source: `nx_con_find_rumble_amp` (hid-nintendo.c:1734-1748). -/
def nx_con_find_rumble_amp (amp : Nat) : NxConRumbleAmpData :=
  let i :=
    if ampKey 0 < amp then
      nx_con_find_rumble_amp_go amp (nx_con_rumble_amplitudes.length - 2) 1
    else 0
  nx_con_rumble_amplitudes.getD i default

/-- Source: `nx_con_encode_rumble` (hid-nintendo.c:1750-1764).  Produces the
four bytes of one side of the rumble payload; stores into `u8` wrap
modulo 256. -/
def nx_con_encode_rumble (freq_low freq_high amp : Nat) : List Nat :=
  let freq_data_low := nx_con_find_rumble_freq freq_low
  let freq_data_high := nx_con_find_rumble_freq freq_high
  let amp_data := nx_con_find_rumble_amp amp
  [ freq_data_high.high / 256 % 256,
    (freq_data_high.high % 256 + amp_data.high) % 256,
    (freq_data_low.low + amp_data.low / 256 % 256) % 256,
    amp_data.low % 256 ]

/-- Modelled from the spec: "find the first table entry whose key is >= the
requested value" as a literal first-match scan, used as the specification
side for the lookup-characterization claim. -/
def spec_first_freq_ge (freq : Nat) :
    List NxConRumbleFreqData → Option NxConRumbleFreqData
  | [] => none
  | e :: rest => if freq ≤ e.freq then some e else spec_first_freq_ge freq rest

/-! ## IMU report timing (`nx_con_report_imu`, timing/averaging part) -/

/-- The timing/averaging fields of `struct nx_con` used by
`nx_con_report_imu`: all are C `unsigned int` (or `bool`). -/
structure ImuTimingState where
  imu_first_packet_received : Bool
  imu_timestamp_us : Nat
  imu_last_pkt_ms : Nat
  imu_delta_samples_count : Nat
  imu_delta_samples_sum : Nat
  imu_avg_delta_ms : Nat
deriving DecidableEq

/-- Source: the else branch of the timing/averaging portion of
`nx_con_report_imu` (hid-nintendo.c:1331-1375 plus the three per-sample
timestamp increments at line 1466), taken on every report after the first:
accumulate the new inter-report delta, every 300 samples recompute the
average (floored at 1), derive the dropped-packet count and advance the
cumulative timestamp.  Returns the updated state and `dropped_pkts`. -/
def nx_con_imu_timing_accumulate (s : ImuTimingState) (msecs : Nat) :
    ImuTimingState × Nat :=
  let delta := u32_sub msecs s.imu_last_pkt_ms
    let sum1 := u32 (s.imu_delta_samples_sum + delta)
    let count1 := u32 (s.imu_delta_samples_count + 1)
    let recompute := count1 ≥ NX_CON_IMU_SAMPLES_PER_DELTA_AVG
    let avg1 :=
      if recompute then
        if sum1 / count1 = 0 then 1 else sum1 / count1
      else s.imu_avg_delta_ms
    let count2 := if recompute then 0 else count1
    let sum2 := if recompute then 0 else sum1
    let dropped_threshold := u32 (avg1 * 3) / 2
    let dropped_pkts := (delta - min delta dropped_threshold) / avg1
    let ts0 := u32 (s.imu_timestamp_us + 1000 * avg1)
    let per_sample := u32 (avg1 * 1000) / 3
    let ts3 := u32 (u32 (u32 (ts0 + per_sample) + per_sample) + per_sample)
    ({ imu_first_packet_received := true
       imu_timestamp_us := ts3
       imu_last_pkt_ms := msecs
       imu_delta_samples_count := count2
       imu_delta_samples_sum := sum2
       imu_avg_delta_ms := avg1 }, dropped_pkts)

/-- Source: the timing/averaging portion of `nx_con_report_imu`
(hid-nintendo.c:1325-1375).  Takes the current state and the report arrival
time `msecs = jiffies_to_msecs(jiffies)`; the very first packet initializes
the timing state (cumulative timestamp 0, average delta 15 ms) and counts no
drops, every later packet goes through `nx_con_imu_timing_accumulate`. -/
def nx_con_report_imu_timing (s : ImuTimingState) (msecs : Nat) :
    ImuTimingState × Nat :=
  if s.imu_first_packet_received = false then
    ({ imu_first_packet_received := true
       imu_timestamp_us := 0
       imu_last_pkt_ms := msecs
       imu_delta_samples_count := 0
       imu_delta_samples_sum := 0
       imu_avg_delta_ms := NX_CON_IMU_DFLT_AVG_DELTA_MS }, 0)
  else
    nx_con_imu_timing_accumulate s msecs

/-- Feed a sequence of report arrival times through the timing state
machine. -/
def runImuReports (s : ImuTimingState) : List Nat → ImuTimingState
  | [] => s
  | m :: ms => runImuReports (nx_con_report_imu_timing s m).1 ms

/-- The zeroed state of a freshly allocated `struct nx_con` (`kzalloc`). -/
def imuInitState : ImuTimingState := ⟨false, 0, 0, 0, 0, 0⟩

/-! ## Rumble scheduler (`nx_con_handle_rumble_report`, `nx_con_set_rumble`) -/

/-- The rumble-queue fields of `struct nx_con` relevant to the silence
countdown: head/tail indices of the ring buffer and the countdown. -/
structure RumbleSchedState where
  rumble_queue_head : Nat
  rumble_queue_tail : Nat
  rumble_zero_countdown : Nat
deriving DecidableEq

/-- Source: `nx_con_handle_rumble_report` (hid-nintendo.c:1470-1493).
`vibrator_report` is the report flag and `period_elapsed` models
`(msecs - rumble_msecs) >= NX_CON_RUMBLE_PERIOD_MS`.  The worker is queued
(the Bool result) only when the queue is non-empty or the countdown is
positive; a positive countdown is decremented first. -/
def nx_con_handle_rumble_report (s : RumbleSchedState)
    (vibrator_report period_elapsed : Bool) : RumbleSchedState × Bool :=
  if vibrator_report = true ∧ period_elapsed = true ∧
      (s.rumble_queue_head ≠ s.rumble_queue_tail ∨ 0 < s.rumble_zero_countdown) then
    ({ s with
       rumble_zero_countdown :=
         if 0 < s.rumble_zero_countdown then s.rumble_zero_countdown - 1
         else s.rumble_zero_countdown }, true)
  else
    (s, false)

/-- Source: the scheduling-relevant part of `nx_con_set_rumble`
(hid-nintendo.c:1791-1834): a request with a non-zero amplitude on either
side resets the silence countdown to `NX_CON_RUMBLE_ZERO_AMP_PKT_CNT`, and
the new frame is written at the advanced (wrapping) queue head. -/
def nx_con_set_rumble_sched (s : RumbleSchedState) (amp_r amp_l : Nat) :
    RumbleSchedState :=
  let s1 :=
    if amp_l ≠ 0 ∨ amp_r ≠ 0 then
      { s with rumble_zero_countdown := NX_CON_RUMBLE_ZERO_AMP_PKT_CNT }
    else s
  { s1 with
    rumble_queue_head :=
      if s1.rumble_queue_head + 1 ≥ NX_CON_RUMBLE_QUEUE_SIZE then 0
      else s1.rumble_queue_head + 1 }

/-- Run `n` periodic-sender opportunities (vibrator report present, period
elapsed), collecting whether each one fired. -/
def runOpportunities (s : RumbleSchedState) : Nat → RumbleSchedState × List Bool
  | 0 => (s, [])
  | n + 1 =>
    let step := nx_con_handle_rumble_report s true true
    let rest := runOpportunities step.1 n
    (rest.1, step.2 :: rest.2)

/-! ## Theorems -/

/-- C1 counterexample: the claim demands a non-zero divisor for every
completed calibration load, including successful flash reads; but a
successful read whose raw calibration bytes are all zero parses to
`scale = offset = 0` on every axis, so the cached divisor is `0`. -/
theorem C1_divisor_counterexample :
    ¬ (∀ (flash : Option (List Nat)) (i : Fin 3),
        (nx_con_request_imu_calibration flash).accel_divisor i ≠ 0 ∧
        (nx_con_request_imu_calibration flash).gyro_divisor i ≠ 0) := by
  intro h
  exact (h (some (List.replicate 24 0)) 0).1 (by decide)

/-- C1 (amended): on every calibration load that falls back to the defaults
(failed flash read), every cached divisor is the non-zero default difference
(16384 for the accelerometer, 13371 for the gyroscope); on a successful read
the divisors equal `scale - offset` of the parsed raw data, with no guard
against that difference being zero. -/
theorem C1_divisors_nonzero_amended :
    (∀ i : Fin 3,
      (nx_con_request_imu_calibration none).accel_divisor i =
        DFLT_ACCEL_SCALE - DFLT_ACCEL_OFFSET ∧
      (nx_con_request_imu_calibration none).gyro_divisor i =
        DFLT_GYRO_SCALE - DFLT_GYRO_OFFSET ∧
      (nx_con_request_imu_calibration none).accel_divisor i ≠ 0 ∧
      (nx_con_request_imu_calibration none).gyro_divisor i ≠ 0) ∧
    (∀ (raw : List Nat) (i : Fin 3),
      (nx_con_request_imu_calibration (some raw)).accel_divisor i =
        s16_of_u16 (get_unaligned_le16 raw (2 * i.val + 6)) -
          s16_of_u16 (get_unaligned_le16 raw (2 * i.val)) ∧
      (nx_con_request_imu_calibration (some raw)).gyro_divisor i =
        s16_of_u16 (get_unaligned_le16 raw (2 * i.val + 18)) -
          s16_of_u16 (get_unaligned_le16 raw (2 * i.val + 12))) := by
  constructor
  · decide
  · intro raw i
    exact ⟨rfl, rfl⟩

/-- C3 counterexample: the claim says every output index from 1 to 5 is
negated on the right Joy-Con, but index 3 (accel_x) keeps its sign: the
driver loop runs `if (j == 3) continue;`. -/
theorem C3_sign_correct_counterexample :
    ¬ (∀ (value : Fin 6 → Int) (j : Fin 6), 1 ≤ j.val →
        nx_con_imu_sign_correct true value j = -(value j)) := by
  intro h
  exact absurd (h (fun _ => 1) 3 (by decide)) (by decide)

/-- C3 (amended): on the right Joy-Con variant the sign correction negates
exactly the output indices 1, 2, 4, 5 (gyro_y, gyro_z, accel_y, accel_z);
indices 0 (gyro_x) and 3 (accel_x) keep their sign. -/
theorem C3_sign_correct_amended :
    ∀ value : Fin 6 → Int,
      nx_con_imu_sign_correct true value 0 = value 0 ∧
      nx_con_imu_sign_correct true value 3 = value 3 ∧
      nx_con_imu_sign_correct true value 1 = -(value 1) ∧
      nx_con_imu_sign_correct true value 2 = -(value 2) ∧
      nx_con_imu_sign_correct true value 4 = -(value 4) ∧
      nx_con_imu_sign_correct true value 5 = -(value 5) := by
  intro value
  refine ⟨?_, ?_, ?_, ?_, ?_, ?_⟩ <;> rfl

/-- C4: when both attempts of the synchronous send time out, the command
coordinator makes exactly two transport sends and two reply waits and
returns `-ETIMEDOUT`; when the transport send itself fails, it returns that
error after a single send with no reply wait and no retry. -/
theorem C4_send_sync_retry (sendRet : Nat → Int) (gotReply : Nat → Bool) :
    (0 ≤ sendRet 0 → gotReply 0 = false → 0 ≤ sendRet 1 → gotReply 1 = false →
      nx_con_hid_send_sync sendRet gotReply = ⟨-ETIMEDOUT, 2, 2⟩) ∧
    (∀ e : Int, e < 0 → sendRet 0 = e →
      nx_con_hid_send_sync sendRet gotReply = ⟨e, 1, 0⟩) := by
  constructor
  · intro h0 g0 h1 g1
    simp [nx_con_hid_send_sync, nx_con_hid_send_sync_go,
      not_lt.mpr h0, not_lt.mpr h1, g0, g1]
  · intro e he hs
    simp [nx_con_hid_send_sync, nx_con_hid_send_sync_go, hs, he]

/-- Witness for C4 at the all-timeouts transport and at a failing transport. -/
theorem C4_send_sync_retry_witness :
    nx_con_hid_send_sync (fun _ => 0) (fun _ => false) = ⟨-ETIMEDOUT, 2, 2⟩ ∧
    nx_con_hid_send_sync (fun _ => -5) (fun _ => false) = ⟨-5, 1, 0⟩ :=
  ⟨(C4_send_sync_retry (fun _ => 0) (fun _ => false)).1 (by decide) rfl (by decide) rfl,
   (C4_send_sync_retry (fun _ => -5) (fun _ => false)).2 (-5) (by decide) rfl⟩

/-- C5: if the session state is `REMOVED`, both the subcommand send path and
the rumble-only send path return `-ENODEV` at once, leave the packet counter
untouched and emit no frame on the transport. -/
theorem C5_removed_no_send (state : NxConState) (subcmd_num : Nat)
    (sendRet0 : Nat → Int) (gotReply : Nat → Bool) (sendRet1 : Int)
    (h : state = NxConState.REMOVED) :
    nx_con_send_subcmd state subcmd_num sendRet0 gotReply =
      (-ENODEV, subcmd_num, []) ∧
    nx_con_send_rumble_data state subcmd_num sendRet1 =
      (-ENODEV, subcmd_num, []) := by
  subst h
  exact ⟨by simp [nx_con_send_subcmd], by simp [nx_con_send_rumble_data]⟩

/-- Witness for C5: a send attempted in the `REMOVED` state. -/
theorem C5_removed_no_send_witness :
    nx_con_send_subcmd NxConState.REMOVED 0 (fun _ => 0) (fun _ => false) =
      (-ENODEV, 0, []) ∧
    nx_con_send_rumble_data NxConState.REMOVED 0 0 = (-ENODEV, 0, []) :=
  C5_removed_no_send NxConState.REMOVED 0 (fun _ => 0) (fun _ => false) 0 rfl

/-- The post-increment wrap of the packet counter keeps it within 0..15. -/
theorem subcmd_num_wrap_le (n : Nat) (h : n ≤ 0xF) :
    (if n + 1 > 0xF then 0 else n + 1) ≤ 0xF := by
  split <;> omega

/-- One subcommand send keeps the counter in range and stamps every emitted
frame with the old (in-range) counter value. -/
theorem send_subcmd_counter_le (st : NxConState) (num : Nat) (sr : Nat → Int)
    (gr : Nat → Bool) (h : num ≤ 0xF) :
    (nx_con_send_subcmd st num sr gr).2.1 ≤ 0xF ∧
    ∀ p ∈ (nx_con_send_subcmd st num sr gr).2.2, p ≤ 0xF := by
  by_cases hst : st = NxConState.REMOVED
  · subst hst
    refine ⟨by simpa [nx_con_send_subcmd] using h, ?_⟩
    intro p hp
    simp [nx_con_send_subcmd] at hp
  · refine ⟨?_, ?_⟩
    · simp only [nx_con_send_subcmd, if_neg hst]
      exact subcmd_num_wrap_le num h
    · intro p hp
      simp only [nx_con_send_subcmd, if_neg hst, List.mem_replicate] at hp
      omega

/-- One rumble-only send keeps the counter in range and stamps its single
emitted frame with the old (in-range) counter value. -/
theorem send_rumble_counter_le (st : NxConState) (num : Nat) (sr : Int)
    (h : num ≤ 0xF) :
    (nx_con_send_rumble_data st num sr).2.1 ≤ 0xF ∧
    ∀ p ∈ (nx_con_send_rumble_data st num sr).2.2, p ≤ 0xF := by
  by_cases hst : st = NxConState.REMOVED
  · subst hst
    refine ⟨by simpa [nx_con_send_rumble_data] using h, ?_⟩
    intro p hp
    simp [nx_con_send_rumble_data] at hp
  · refine ⟨?_, ?_⟩
    · simp only [nx_con_send_rumble_data, if_neg hst]
      exact subcmd_num_wrap_le num h
    · intro p hp
      simp only [nx_con_send_rumble_data, if_neg hst, List.mem_singleton] at hp
      omega

/-- C10: along any sequence of subcommand and rumble-only sends, a packet
counter that starts within 0..15 stays within 0..15 and every frame emitted
on the transport carries a `packet_num` of at most 15 (the counter is
stamped, then post-incremented with wrap after 0xF). -/
theorem C10_packet_num_range (ops : List SendOp) : ∀ num : Nat, num ≤ 0xF →
    (runSendOps num ops).1 ≤ 0xF ∧ ∀ p ∈ (runSendOps num ops).2, p ≤ 0xF := by
  induction ops with
  | nil =>
    intro num h
    exact ⟨h, by simp [runSendOps]⟩
  | cons op ops ih =>
    intro num h
    cases op with
    | subcmd st sr gr =>
      obtain ⟨h1, h2⟩ := send_subcmd_counter_le st num sr gr h
      obtain ⟨h3, h4⟩ := ih _ h1
      refine ⟨by simpa [runSendOps] using h3, ?_⟩
      intro p hp
      simp only [runSendOps, List.mem_append] at hp
      rcases hp with hp | hp
      · exact h2 p hp
      · exact h4 p hp
    | rumble st sr =>
      obtain ⟨h1, h2⟩ := send_rumble_counter_le st num sr h
      obtain ⟨h3, h4⟩ := ih _ h1
      refine ⟨by simpa [runSendOps] using h3, ?_⟩
      intro p hp
      simp only [runSendOps, List.mem_append] at hp
      rcases hp with hp | hp
      · exact h2 p hp
      · exact h4 p hp

/-- Witness for C10: a one-element trace from the freshly zeroed counter. -/
theorem C10_packet_num_range_witness :
    (runSendOps 0 [SendOp.rumble NxConState.READ 0]).1 ≤ 0xF ∧
    ∀ p ∈ (runSendOps 0 [SendOp.rumble NxConState.READ 0]).2, p ≤ 0xF :=
  C10_packet_num_range [SendOp.rumble NxConState.READ 0] 0 (by decide)

/-- C9: a rumble request with a non-zero amplitude on either side resets the
silence countdown to 5; an all-zero request leaves it unchanged; a
periodic-sender opportunity with an empty queue and a positive countdown
fires and decrements the countdown; with an empty queue and a zero countdown
the sender stays idle; and from a fresh countdown of 5 with an empty queue,
the first five opportunities fire and the sixth does not. -/
theorem C9_silence_countdown :
    (∀ (s : RumbleSchedState) (amp_r amp_l : Nat), amp_l ≠ 0 ∨ amp_r ≠ 0 →
        (nx_con_set_rumble_sched s amp_r amp_l).rumble_zero_countdown =
          NX_CON_RUMBLE_ZERO_AMP_PKT_CNT) ∧
    (∀ s : RumbleSchedState,
        (nx_con_set_rumble_sched s 0 0).rumble_zero_countdown =
          s.rumble_zero_countdown) ∧
    (∀ s : RumbleSchedState, s.rumble_queue_head = s.rumble_queue_tail →
        0 < s.rumble_zero_countdown →
        nx_con_handle_rumble_report s true true =
          ({ s with rumble_zero_countdown := s.rumble_zero_countdown - 1 },
           true)) ∧
    (∀ s : RumbleSchedState, s.rumble_queue_head = s.rumble_queue_tail →
        s.rumble_zero_countdown = 0 →
        nx_con_handle_rumble_report s true true = (s, false)) ∧
    runOpportunities ⟨0, 0, 5⟩ 6 =
      (⟨0, 0, 0⟩, [true, true, true, true, true, false]) := by
  refine ⟨?_, ?_, ?_, ?_, by decide⟩
  · intro s amp_r amp_l hne
    unfold nx_con_set_rumble_sched
    rw [if_pos hne]
  · intro s
    unfold nx_con_set_rumble_sched
    rw [if_neg (by simp)]
  · intro s hq hc
    unfold nx_con_handle_rumble_report
    rw [if_pos ⟨rfl, rfl, Or.inr hc⟩, if_pos hc]
  · intro s hq hc
    unfold nx_con_handle_rumble_report
    rw [if_neg (by simp [hq, hc])]

/-- Witness for C9: a non-zero request resets the countdown, and an
opportunity with an empty queue and exhausted countdown stays idle. -/
theorem C9_silence_countdown_witness :
    (nx_con_set_rumble_sched ⟨0, 0, 0⟩ 0 1).rumble_zero_countdown =
      NX_CON_RUMBLE_ZERO_AMP_PKT_CNT ∧
    nx_con_handle_rumble_report ⟨2, 2, 0⟩ true true = (⟨2, 2, 0⟩, false) :=
  ⟨C9_silence_countdown.1 ⟨0, 0, 0⟩ 0 1 (Or.inl (by decide)),
   C9_silence_countdown.2.2.2.1 ⟨2, 2, 0⟩ rfl rfl⟩

set_option maxRecDepth 8000

/-- Dispatch lemma: after the first packet has been received, the timing
step takes the accumulation branch. -/
theorem nx_con_report_imu_timing_not_first (s : ImuTimingState) (msecs : Nat)
    (hfirst : s.imu_first_packet_received = true) :
    nx_con_report_imu_timing s msecs = nx_con_imu_timing_accumulate s msecs := by
  unfold nx_con_report_imu_timing
  rw [hfirst]
  simp

/-- C6: on a non-first report, the running delta sum and count grow until
the count reaches 300; exactly then the average is recomputed as
`sum / count` (floored at 1 when the quotient is 0) and the sum and count
reset to 0.  Feeding 301 arrival times 0, 15, 30, ..., i.e. 300 reports
with constant inter-report delta 15 ms, recomputes an average of 15. -/
theorem C6_imu_averager (s : ImuTimingState) (msecs : Nat)
    (hfirst : s.imu_first_packet_received = true)
    (hcount : s.imu_delta_samples_count < NX_CON_IMU_SAMPLES_PER_DELTA_AVG)
    (hsum : s.imu_delta_samples_sum + u32_sub msecs s.imu_last_pkt_ms < U32) :
    ((s.imu_delta_samples_count + 1 < NX_CON_IMU_SAMPLES_PER_DELTA_AVG →
       (nx_con_report_imu_timing s msecs).1.imu_avg_delta_ms =
         s.imu_avg_delta_ms ∧
       (nx_con_report_imu_timing s msecs).1.imu_delta_samples_count =
         s.imu_delta_samples_count + 1 ∧
       (nx_con_report_imu_timing s msecs).1.imu_delta_samples_sum =
         s.imu_delta_samples_sum + u32_sub msecs s.imu_last_pkt_ms) ∧
     (s.imu_delta_samples_count + 1 = NX_CON_IMU_SAMPLES_PER_DELTA_AVG →
       (nx_con_report_imu_timing s msecs).1.imu_avg_delta_ms =
         (if (s.imu_delta_samples_sum + u32_sub msecs s.imu_last_pkt_ms) /
              NX_CON_IMU_SAMPLES_PER_DELTA_AVG = 0 then 1
          else (s.imu_delta_samples_sum + u32_sub msecs s.imu_last_pkt_ms) /
              NX_CON_IMU_SAMPLES_PER_DELTA_AVG) ∧
       (nx_con_report_imu_timing s msecs).1.imu_delta_samples_count = 0 ∧
       (nx_con_report_imu_timing s msecs).1.imu_delta_samples_sum = 0)) ∧
    (runImuReports imuInitState
        ((List.range 301).map (fun k => k * 15))).imu_avg_delta_ms = 15 := by
  have hstep := nx_con_report_imu_timing_not_first s msecs hfirst
  have hcu : u32 (s.imu_delta_samples_count + 1) =
      s.imu_delta_samples_count + 1 := by
    have hlt : s.imu_delta_samples_count + 1 < U32 := by
      simp only [NX_CON_IMU_SAMPLES_PER_DELTA_AVG] at hcount
      simp only [U32]
      omega
    simpa [u32] using Nat.mod_eq_of_lt hlt
  have hsu : u32 (s.imu_delta_samples_sum + u32_sub msecs s.imu_last_pkt_ms) =
      s.imu_delta_samples_sum + u32_sub msecs s.imu_last_pkt_ms := by
    simpa [u32] using Nat.mod_eq_of_lt hsum
  refine ⟨⟨?_, ?_⟩, by decide⟩
  · intro hlt
    rw [hstep]
    simp only [nx_con_imu_timing_accumulate, hcu, hsu, ge_iff_le]
    simp only [NX_CON_IMU_SAMPLES_PER_DELTA_AVG] at hlt ⊢
    refine ⟨?_, ?_, ?_⟩ <;>
      · split
        · rename_i hrec
          exact absurd hrec (by omega)
        · rfl
  · intro heq
    rw [hstep]
    simp only [nx_con_imu_timing_accumulate, hcu, hsu, ge_iff_le]
    simp only [NX_CON_IMU_SAMPLES_PER_DELTA_AVG] at heq ⊢
    rw [heq]
    refine ⟨?_, ?_, ?_⟩ <;>
      · split
        · rfl
        · rename_i hrec
          exact absurd hrec (by omega)

/-- Witness for C6: the 300-report constant-delta scenario. -/
theorem C6_imu_averager_witness :
    (runImuReports imuInitState
        ((List.range 301).map (fun k => k * 15))).imu_avg_delta_ms = 15 :=
  (C6_imu_averager ⟨true, 0, 0, 0, 0, 15⟩ 15 rfl (by decide) (by decide)).2

/-- C7: on every non-first report the dropped-packet count equals
`(delta - min(delta, avg * 3 / 2)) / avg` in unsigned integer arithmetic
(with `avg` the freshly updated average delta), and it is 0 whenever the
inter-report delta is at most 1.5 times that average. -/
theorem C7_dropped_pkts (s : ImuTimingState) (msecs : Nat)
    (hfirst : s.imu_first_packet_received = true)
    (havg : (nx_con_report_imu_timing s msecs).1.imu_avg_delta_ms * 3 < U32) :
    ((nx_con_report_imu_timing s msecs).2 =
      (u32_sub msecs s.imu_last_pkt_ms -
        min (u32_sub msecs s.imu_last_pkt_ms)
          ((nx_con_report_imu_timing s msecs).1.imu_avg_delta_ms * 3 / 2)) /
      (nx_con_report_imu_timing s msecs).1.imu_avg_delta_ms) ∧
    (2 * u32_sub msecs s.imu_last_pkt_ms ≤
        3 * (nx_con_report_imu_timing s msecs).1.imu_avg_delta_ms →
      (nx_con_report_imu_timing s msecs).2 = 0) := by
  have hstep := nx_con_report_imu_timing_not_first s msecs hfirst
  rw [hstep] at havg ⊢
  have e1 : (nx_con_imu_timing_accumulate s msecs).2 =
      (u32_sub msecs s.imu_last_pkt_ms -
        min (u32_sub msecs s.imu_last_pkt_ms)
          (u32 ((nx_con_imu_timing_accumulate s msecs).1.imu_avg_delta_ms * 3) / 2)) /
      (nx_con_imu_timing_accumulate s msecs).1.imu_avg_delta_ms := rfl
  have hmod : u32 ((nx_con_imu_timing_accumulate s msecs).1.imu_avg_delta_ms * 3) =
      (nx_con_imu_timing_accumulate s msecs).1.imu_avg_delta_ms * 3 := by
    simpa [u32] using Nat.mod_eq_of_lt havg
  constructor
  · rw [e1, hmod]
  · intro hle
    rw [e1, hmod]
    have hthr : u32_sub msecs s.imu_last_pkt_ms ≤
        (nx_con_imu_timing_accumulate s msecs).1.imu_avg_delta_ms * 3 / 2 :=
      (Nat.le_div_iff_mul_le (by norm_num)).mpr (by omega)
    rw [min_eq_left hthr]
    simp

/-- Witness for C7: second report 20 ms after the first with the default
15 ms average. -/
theorem C7_dropped_pkts_witness :
    (nx_con_report_imu_timing ⟨true, 0, 0, 0, 0, 15⟩ 20).2 =
      (u32_sub 20 0 -
        min (u32_sub 20 0)
          ((nx_con_report_imu_timing ⟨true, 0, 0, 0, 0, 15⟩ 20).1.imu_avg_delta_ms
            * 3 / 2)) /
      (nx_con_report_imu_timing ⟨true, 0, 0, 0, 0, 15⟩ 20).1.imu_avg_delta_ms :=
  (C7_dropped_pkts ⟨true, 0, 0, 0, 0, 15⟩ 20 rfl (by decide)).1

/-- Truncating (C-style) division by a positive divisor is monotone in the
numerator. -/
theorem tdiv_le_tdiv_right {a b d : Int} (hd : 0 < d) (hab : a ≤ b) :
    Int.tdiv a d ≤ Int.tdiv b d := by
  rcases le_or_lt 0 a with ha | ha
  · rw [Int.tdiv_eq_ediv ha (le_of_lt hd),
      Int.tdiv_eq_ediv (le_trans ha hab) (le_of_lt hd)]
    exact Int.ediv_le_ediv hd hab
  · rcases le_or_lt 0 b with hb | hb
    · have h1 : 0 ≤ Int.tdiv (-a) d := Int.tdiv_nonneg (by omega) (le_of_lt hd)
      have h2 : Int.tdiv (-a) d = -Int.tdiv a d := Int.neg_tdiv a d
      have h3 : 0 ≤ Int.tdiv b d := Int.tdiv_nonneg hb (le_of_lt hd)
      omega
    · have h1 : Int.tdiv (-b) d ≤ Int.tdiv (-a) d := by
        rw [Int.tdiv_eq_ediv (by omega) (le_of_lt hd),
          Int.tdiv_eq_ediv (by omega) (le_of_lt hd)]
        exact Int.ediv_le_ediv hd (by omega)
      have h2 : Int.tdiv (-a) d = -Int.tdiv a d := Int.neg_tdiv a d
      have h3 : Int.tdiv (-b) d = -Int.tdiv b d := Int.neg_tdiv b d
      omega

/-- A non-negative numerator bounded by `c * d` has truncating quotient at
most `c`. -/
theorem tdiv_le_of_le_mul {a c d : Int} (hd : 0 < d) (h : a ≤ c * d) :
    Int.tdiv a d ≤ c := by
  have h1 : Int.tdiv a d ≤ Int.tdiv (c * d) d := tdiv_le_tdiv_right hd h
  rwa [Int.mul_tdiv_cancel c (ne_of_gt hd)] at h1

/-- The unclamped piecewise rescaling inside `nx_con_map_stick_val` is
monotone in the raw value whenever `min < center < max`. -/
theorem map_stick_val_inner_mono (cal : NxConStickCal)
    (hmin : cal.min < cal.center) (hmax : cal.center < cal.max)
    {v1 v2 : Int} (h12 : v1 ≤ v2) :
    (if v1 > cal.center then
      Int.tdiv ((v1 - cal.center) * NX_CON_MAX_STICK_MAG) (cal.max - cal.center)
    else
      Int.tdiv ((cal.center - v1) * (-NX_CON_MAX_STICK_MAG)) (cal.center - cal.min)) ≤
    (if v2 > cal.center then
      Int.tdiv ((v2 - cal.center) * NX_CON_MAX_STICK_MAG) (cal.max - cal.center)
    else
      Int.tdiv ((cal.center - v2) * (-NX_CON_MAX_STICK_MAG)) (cal.center - cal.min)) := by
  have hdr : (0 : Int) < cal.max - cal.center := by omega
  have hdl : (0 : Int) < cal.center - cal.min := by omega
  have hneg : ∀ v : Int, (cal.center - v) * (-NX_CON_MAX_STICK_MAG) =
      -((cal.center - v) * NX_CON_MAX_STICK_MAG) := by
    intro v
    ring
  by_cases h1 : v1 > cal.center
  · rw [if_pos h1, if_pos (by omega)]
    exact tdiv_le_tdiv_right hdr
      (mul_le_mul_of_nonneg_right (by omega) (by norm_num [NX_CON_MAX_STICK_MAG]))
  · rw [if_neg h1]
    by_cases h2 : v2 > cal.center
    · rw [if_pos h2]
      have hle0 : Int.tdiv ((cal.center - v1) * (-NX_CON_MAX_STICK_MAG))
          (cal.center - cal.min) ≤ 0 := by
        rw [hneg v1, Int.neg_tdiv]
        have : 0 ≤ Int.tdiv ((cal.center - v1) * NX_CON_MAX_STICK_MAG)
            (cal.center - cal.min) :=
          Int.tdiv_nonneg
            (mul_nonneg (by omega) (by norm_num [NX_CON_MAX_STICK_MAG]))
            (le_of_lt hdl)
        omega
      have hge0 : 0 ≤ Int.tdiv ((v2 - cal.center) * NX_CON_MAX_STICK_MAG)
          (cal.max - cal.center) :=
        Int.tdiv_nonneg
          (mul_nonneg (by omega) (by norm_num [NX_CON_MAX_STICK_MAG]))
          (le_of_lt hdr)
      omega
    · rw [if_neg h2, hneg v1, hneg v2, Int.neg_tdiv, Int.neg_tdiv]
      have : Int.tdiv ((cal.center - v2) * NX_CON_MAX_STICK_MAG)
          (cal.center - cal.min) ≤
          Int.tdiv ((cal.center - v1) * NX_CON_MAX_STICK_MAG)
          (cal.center - cal.min) :=
        tdiv_le_tdiv_right hdl
          (mul_le_mul_of_nonneg_right (by omega)
            (by norm_num [NX_CON_MAX_STICK_MAG]))
      omega

/-- C2: with any calibration satisfying `min < center < max`, the stick
mapping is monotone on `[min, max]`, always clamped into `[-32767, 32767]`,
maps the center to 0, equals `(v - center) * 32767 / (max - center)` above
center and `(center - v) * -32767 / (center - min)` at or below center
(C truncating division, no clamping needed inside the calibrated range);
and for `center = 2000, max = 3500, min = 500` the raw values 3500, 500,
2000 map to 32767, -32767 and 0. -/
theorem C2_map_stick_val (cal : NxConStickCal)
    (hmin : cal.min < cal.center) (hmax : cal.center < cal.max) :
    (∀ v1 v2 : Int, cal.min ≤ v1 → v1 ≤ v2 → v2 ≤ cal.max →
        nx_con_map_stick_val cal v1 ≤ nx_con_map_stick_val cal v2) ∧
    (∀ v : Int, -32767 ≤ nx_con_map_stick_val cal v ∧
        nx_con_map_stick_val cal v ≤ 32767) ∧
    nx_con_map_stick_val cal cal.center = 0 ∧
    (∀ v : Int, cal.center < v → v ≤ cal.max →
        nx_con_map_stick_val cal v =
          Int.tdiv ((v - cal.center) * 32767) (cal.max - cal.center)) ∧
    (∀ v : Int, cal.min ≤ v → v ≤ cal.center →
        nx_con_map_stick_val cal v =
          Int.tdiv ((cal.center - v) * (-32767)) (cal.center - cal.min)) ∧
    nx_con_map_stick_val ⟨2000, 3500, 500⟩ 3500 = 32767 ∧
    nx_con_map_stick_val ⟨2000, 3500, 500⟩ 500 = -32767 ∧
    nx_con_map_stick_val ⟨2000, 3500, 500⟩ 2000 = 0 := by
  have hdr : (0 : Int) < cal.max - cal.center := by omega
  have hdl : (0 : Int) < cal.center - cal.min := by omega
  have hmag : NX_CON_MAX_STICK_MAG = (32767 : Int) := rfl
  refine ⟨?_, ?_, ?_, ?_, ?_, by decide, by decide, by decide⟩
  · intro v1 v2 _ h12 _
    unfold nx_con_map_stick_val clamp
    exact min_le_min
      (max_le_max (map_stick_val_inner_mono cal hmin hmax h12) le_rfl) le_rfl
  · intro v
    unfold nx_con_map_stick_val clamp
    constructor
    · refine le_min (le_max_right _ _) ?_
      norm_num [NX_CON_MAX_STICK_MAG]
    · exact min_le_right _ _
  · unfold nx_con_map_stick_val clamp
    rw [if_neg (by omega), sub_self, zero_mul, Int.zero_tdiv]
    norm_num [NX_CON_MAX_STICK_MAG]
  · intro v hv hvmax
    have hge0 : 0 ≤ Int.tdiv ((v - cal.center) * NX_CON_MAX_STICK_MAG)
        (cal.max - cal.center) :=
      Int.tdiv_nonneg
        (mul_nonneg (by omega) (by norm_num [NX_CON_MAX_STICK_MAG]))
        (le_of_lt hdr)
    have hle : Int.tdiv ((v - cal.center) * NX_CON_MAX_STICK_MAG)
        (cal.max - cal.center) ≤ 32767 := by
      apply tdiv_le_of_le_mul hdr
      rw [hmag]
      nlinarith
    unfold nx_con_map_stick_val clamp
    rw [if_pos hv, hmag]
    rw [hmag] at hge0 hle
    show (_ ⊔ (-32767 : Int)) ⊓ 32767 = _
    rw [max_eq_left (by omega), min_eq_left hle]
  · intro v hvmin hv
    have hneg : (cal.center - v) * (-NX_CON_MAX_STICK_MAG) =
        -((cal.center - v) * NX_CON_MAX_STICK_MAG) := by ring
    have hge0 : 0 ≤ Int.tdiv ((cal.center - v) * NX_CON_MAX_STICK_MAG)
        (cal.center - cal.min) :=
      Int.tdiv_nonneg
        (mul_nonneg (by omega) (by norm_num [NX_CON_MAX_STICK_MAG]))
        (le_of_lt hdl)
    have hle : Int.tdiv ((cal.center - v) * NX_CON_MAX_STICK_MAG)
        (cal.center - cal.min) ≤ 32767 := by
      apply tdiv_le_of_le_mul hdl
      rw [hmag]
      nlinarith
    unfold nx_con_map_stick_val clamp
    rw [if_neg (by omega), hmag]
    rw [hmag] at hneg hge0 hle
    rw [hneg, Int.neg_tdiv]
    show (_ ⊔ (-32767 : Int)) ⊓ 32767 = _
    rw [max_eq_left (by omega), min_eq_left (by omega)]

/-- Witness for C2 at the documented default calibration. -/
theorem C2_map_stick_val_witness :
    nx_con_map_stick_val ⟨2000, 3500, 500⟩ 3500 = 32767 ∧
    nx_con_map_stick_val ⟨2000, 3500, 500⟩ 500 = -32767 ∧
    nx_con_map_stick_val ⟨2000, 3500, 500⟩ 2000 = 0 :=
  ⟨(C2_map_stick_val ⟨2000, 3500, 500⟩ (by decide) (by decide)).2.2.2.2.2.1,
   (C2_map_stick_val ⟨2000, 3500, 500⟩ (by decide) (by decide)).2.2.2.2.2.2.1,
   (C2_map_stick_val ⟨2000, 3500, 500⟩ (by decide) (by decide)).2.2.2.2.2.2.2⟩

/-- The scan loop of `nx_con_find_rumble_freq` stops at the least index `m`
whose key is at least the requested frequency, provided the scan starts at
or before `m` and has enough iterations left to reach it. -/
theorem freq_go_eq (f m : Nat) (hm : f ≤ freqKey m)
    (hmin : ∀ j, j < m → freqKey j < f) :
    ∀ fuel i, 1 ≤ i → i ≤ m → m ≤ i + fuel →
      nx_con_find_rumble_freq_go f fuel i = m := by
  intro fuel
  induction fuel with
  | zero =>
    intro i h1 h2 h3
    have hi : i = m := by omega
    subst hi
    rfl
  | succ fuel ih =>
    intro i h1 h2 h3
    by_cases him : i = m
    · subst him
      have hc1 : freqKey (i - 1) < f := hmin (i - 1) (by omega)
      simp only [nx_con_find_rumble_freq_go]
      rw [if_pos ⟨hc1, hm⟩]
    · have hlt : i < m := by omega
      have hc2 : ¬ (freqKey (i - 1) < f ∧ f ≤ freqKey i) := by
        intro hc
        exact absurd hc.2 (not_le.mpr (hmin i hlt))
      simp only [nx_con_find_rumble_freq_go]
      rw [if_neg hc2]
      exact ih (i + 1) (by omega) (by omega) (by omega)

/-- The literal first-match scan of the spec returns the entry at the least
index whose key is at least the requested value. -/
theorem spec_first_ge_getD (f : Nat) :
    ∀ (l : List NxConRumbleFreqData) (m : Nat), m < l.length →
      f ≤ (l.getD m default).freq →
      (∀ j, j < m → (l.getD j default).freq < f) →
      spec_first_freq_ge f l = some (l.getD m default) := by
  intro l
  induction l with
  | nil =>
    intro m hm
    simp at hm
  | cons e rest ih =>
    intro m hm hf hmn
    cases m with
    | zero =>
      simp only [List.getD_cons_zero] at hf ⊢
      simp only [spec_first_freq_ge, if_pos hf]
    | succ k =>
      have he : e.freq < f := by
        have h0 := hmn 0 (Nat.succ_pos k)
        simpa using h0
      simp only [spec_first_freq_ge, if_neg (not_le.mpr he)]
      simp only [List.getD_cons_succ]
      apply ih k
      · simpa using hm
      · simpa [List.getD_cons_succ] using hf
      · intro j hj
        have hh := hmn (j + 1) (by omega)
        simpa [List.getD_cons_succ] using hh

/-- Adjacent keys of the frequency table are strictly ascending. -/
theorem freqKey_adjacent : ∀ i : Fin 158, freqKey i.val < freqKey (i.val + 1) := by
  decide

/-- Keys of the frequency table are strictly ascending. -/
theorem freqKey_strict_mono : ∀ i j : Nat, i < j → j ≤ 158 → freqKey i < freqKey j := by
  intro i j
  induction j with
  | zero =>
    intro h1 _
    exact absurd h1 (by omega)
  | succ k ih =>
    intro hij hk
    rcases Nat.lt_succ_iff_lt_or_eq.mp hij with h | h
    · exact lt_trans (ih h (by omega)) (freqKey_adjacent ⟨k, by omega⟩)
    · subst h
      exact freqKey_adjacent ⟨i, by omega⟩

/-- For any requested frequency within the table range, the table lookup
returns the entry at the least index whose key is at least the request. -/
theorem find_rumble_freq_min_index (f : Nat) (hf : f ≤ 1253) :
    ∃ m, m < nx_con_rumble_frequencies.length ∧
      nx_con_find_rumble_freq f = nx_con_rumble_frequencies.getD m default ∧
      f ≤ freqKey m ∧ (∀ j, j < m → freqKey j < f) := by
  have hlen : nx_con_rumble_frequencies.length = 159 := rfl
  have hlast : freqKey 158 = 1253 := rfl
  by_cases h0 : freqKey 0 < f
  · have hex : ∃ j, f ≤ freqKey j := ⟨158, by omega⟩
    have hm : f ≤ freqKey (Nat.find hex) := Nat.find_spec hex
    have hmin : ∀ j, j < Nat.find hex → freqKey j < f := fun j hj =>
      not_le.mp (Nat.find_min hex hj)
    have hm158 : Nat.find hex ≤ 158 := Nat.find_min' hex (by omega)
    have hm1 : 1 ≤ Nat.find hex := by
      rcases Nat.eq_zero_or_pos (Nat.find hex) with h | h
      · rw [h] at hm
        omega
      · omega
    refine ⟨Nat.find hex, by omega, ?_, hm, hmin⟩
    simp only [nx_con_find_rumble_freq]
    rw [if_pos h0, hlen]
    rw [freq_go_eq f (Nat.find hex) hm hmin 157 1 (by omega) hm1 (by omega)]
  · refine ⟨0, by omega, ?_, not_lt.mp h0, by omega⟩
    simp only [nx_con_find_rumble_freq]
    rw [if_neg h0]

/-- C8: the nearest-rank frequency lookup returns, for every request up to
the largest key (1253 Hz), exactly the first table entry whose key is at
least the request (so a request equal to an entry's key returns that entry,
and a request at or below the first key returns the first entry); encoding
a frequency at zero amplitude reproduces the matched entry's high/low byte
data in the output bytes. -/
theorem C8_rumble_freq_lookup :
    (∀ k : Fin nx_con_rumble_frequencies.length,
        nx_con_find_rumble_freq (nx_con_rumble_frequencies.get k).freq =
          nx_con_rumble_frequencies.get k) ∧
    (∀ f : Nat, f ≤ 1253 →
        spec_first_freq_ge f nx_con_rumble_frequencies =
          some (nx_con_find_rumble_freq f)) ∧
    (∀ f : Nat, f ≤ 41 →
        nx_con_find_rumble_freq f = NxConRumbleFreqData.mk 0 1 41) ∧
    (∀ f : Nat, nx_con_encode_rumble f f 0 =
        [(nx_con_find_rumble_freq f).high / 256 % 256,
         (nx_con_find_rumble_freq f).high % 256,
         (nx_con_find_rumble_freq f).low % 256,
         64]) := by
  have hlen : nx_con_rumble_frequencies.length = 159 := rfl
  have hget : ∀ k : Fin nx_con_rumble_frequencies.length,
      nx_con_rumble_frequencies.get k =
        nx_con_rumble_frequencies.getD k.val default := by
    intro k
    rw [List.getD_eq_getElem?_getD, List.getElem?_eq_getElem k.isLt]
    rfl
  refine ⟨?_, ?_, ?_, ?_⟩
  · intro k
    have hkf : (nx_con_rumble_frequencies.get k).freq = freqKey k.val := by
      rw [hget k]
      rfl
    have hk158 : k.val ≤ 158 := by
      have := k.isLt
      omega
    have hfle : freqKey k.val ≤ 1253 := by
      have hlast : freqKey 158 = 1253 := rfl
      rcases Nat.lt_or_ge k.val 158 with h | h
      · have := freqKey_strict_mono k.val 158 h (by omega)
        omega
      · have : k.val = 158 := by omega
        rw [this]
        omega
    obtain ⟨m, hmlen, hfind, hle, hmin⟩ :=
      find_rumble_freq_min_index (freqKey k.val) hfle
    have hmk : m = k.val := by
      by_contra hne
      rcases Nat.lt_or_ge m k.val with h | h
      · have := freqKey_strict_mono m k.val h hk158
        omega
      · have hgt : k.val < m := by omega
        have := hmin k.val hgt
        omega
    rw [hkf, hfind, hmk, ← hget k]
  · intro f hf
    obtain ⟨m, hmlen, hfind, hle, hmin⟩ := find_rumble_freq_min_index f hf
    rw [hfind]
    exact spec_first_ge_getD f nx_con_rumble_frequencies m hmlen hle hmin
  · intro f hf
    have h0 : ¬ (freqKey 0 < f) := by
      have h41 : freqKey 0 = 41 := rfl
      omega
    simp only [nx_con_find_rumble_freq]
    rw [if_neg h0]
    rfl
  · intro f
    have hamp : nx_con_find_rumble_amp 0 = NxConRumbleAmpData.mk 0 64 0 := rfl
    simp only [nx_con_encode_rumble, hamp, List.cons.injEq, and_true]
    exact ⟨trivial, by omega, by omega⟩

/-- Witness for C8: the default low rumble frequency 320 Hz and a request
below the first table key. -/
theorem C8_rumble_freq_lookup_witness :
    spec_first_freq_ge 320 nx_con_rumble_frequencies =
      some (nx_con_find_rumble_freq 320) ∧
    nx_con_find_rumble_freq 40 = NxConRumbleFreqData.mk 0 1 41 :=
  ⟨C8_rumble_freq_lookup.2.1 320 (by decide),
   C8_rumble_freq_lookup.2.2.1 40 (by decide)⟩

end HidNx
